import Mathlib

/-!
Shallow embedding of `app.py` from the mtriage-server repository.

The server indexes "batches" of "elements" on one of two storage backends
(local filesystem or an S3 bucket), persists the index to a snapshot file,
and serves lookup / pagination / ranking queries over it.

Modelling conventions:
  * JSON payloads parsed from storage are opaque to the server logic, so we
    model them as plain strings (`Json`).
  * The filesystem and the S3 bucket are modelled as explicit state records
    (`LocalFS`, `S3FS`) passed to every operation that touches storage.
  * Python `int`s are `Int`; Python list slicing (with its clamping
    semantics) is `pySlice`.
  * Fallible operations (file open, snapshot decoding, attribute errors,
    unexpected-keyword `TypeError`s) return `Option` / `Except`.
-/

namespace Mtriage

/-- JSON payloads are opaque to the server: it parses them and passes them
through unchanged, so we model a parsed JSON document as a string. -/
abbrev Json := String

/-- A Python value as it appears in a batch's `__dict__` / pickle snapshot. -/
inductive PyVal where
  | vstr : String → PyVal
  | vlist : List String → PyVal
  | vdict : List (String × List String) → PyVal
  | vjson : Json → PyVal
deriving DecidableEq, Repr

/-- `Path(s).name` on the character list: the final path component, with
trailing separators ignored. Computed from the reversed list: drop the
trailing slashes, then take up to the next slash. -/
def pathNameL (l : List Char) : List Char :=
  (((l.reverse).dropWhile (fun c => c = '/')).takeWhile (fun c => c ≠ '/')).reverse

/-- `Path(s).name`. -/
def pathName (s : String) : String :=
  String.mk (pathNameL s.data)

/-- `Path(s).suffix` on the name's character list, following CPython's
`name.rfind('.')` rule: the extension from the last dot on, unless the
dot is the first or the last character of the name. -/
def pathSuffixL (n : List Char) : List Char :=
  let rev := n.reverse
  let ext := rev.takeWhile (fun c => c ≠ '.')
  if ext.length < rev.length ∧ 0 < ext.length ∧ ext.length + 1 < n.length then
    '.' :: ext.reverse
  else []

/-- `Path(s).suffix`: the final extension including the dot, `""` when the
name has no extension or is a dotfile. -/
def pathSuffix (s : String) : String :=
  String.mk (pathSuffixL (pathNameL s.data))

/-- Does `pat` occur at the head of `l`? -/
def startsL : List Char → List Char → Bool
  | [], _ => true
  | _ :: _, [] => false
  | p :: ps, x :: xs => p = x && startsL ps xs

/-- Does `pat` occur anywhere in `l`? -/
def occursL (pat : List Char) : List Char → Bool
  | [] => pat.isEmpty
  | x :: xs => startsL pat (x :: xs) || occursL pat xs

/-- `re.match(".*" ++ pat, s)` succeeds exactly when `pat` occurs in `s`
(the match is anchored at the start but need not reach the end). -/
def strContains (s pat : String) : Bool :=
  occursL pat.data s.data

/-- Python `s.startswith(pat)`. -/
def strStarts (s pat : String) : Bool :=
  startsL pat.data s.data

/-- Python `str.strip("/")` on the character list: drop leading and trailing
slash characters. -/
def stripSlashesL (l : List Char) : List Char :=
  ((l.dropWhile (fun c => c = '/')).reverse.dropWhile (fun c => c = '/')).reverse

/-- Python `s.strip("/")`. -/
def stripSlashes (s : String) : String :=
  String.mk (stripSlashesL s.toList)

/-- Normalize one bound of a Python slice `l[start:stop]` for a list of
length `n`: negative indices count from the end and everything is clamped
to `[0, n]`. -/
def pySliceIdx (n : Nat) (i : Int) : Nat :=
  if i < 0 then (i + n).toNat else min i.toNat n

/-- Python list slicing `l[start:stop]`. -/
def pySlice {α : Type} (l : List α) (start stop : Int) : List α :=
  (l.take (pySliceIdx l.length stop)).drop (pySliceIdx l.length start)

/-- An unpacked element: `{"id": ..., "media": {filename: parsed JSON}}`. -/
structure Element where
  id : String
  media : List (String × Json)
deriving DecidableEq, Repr

/-- The local filesystem as seen by `LocalBatch`:
`dirs r` models `[x for x in Path(r).glob("**/*") if x.is_dir()]` and
`files p` models the `(f.name, json.load(f))` pairs for the files of
directory `p` (in `iterdir` order). -/
structure LocalFS where
  dirs : String → List String
  files : String → List (String × Json)

/-- The S3 bucket state as seen by `S3Batch`:
`objects bucket` lists every `(key, parsed content)` object of the bucket;
`commonPfxs bucket q` models the `CommonPrefixes` returned by
`list_objects_v2(Bucket=bucket, Prefix=q, Delimiter="/")`; and
`rankings bucket q` models the parsed
`unpack_element("__RANKING")["media"]["rankings.json"]` dictionary. -/
structure S3FS where
  objects : String → List (String × Json)
  commonPfxs : String → String → List String
  rankings : String → String → List (String × List String)

/-- The state of a `LocalBatch` instance (its `__dict__`). `ranking` is
`some _` exactly when `index_elements` detected a `__RANKING` element and
successfully read its `rankings.json` payload. -/
structure LocalBatch where
  query : String
  etype : String
  root : String
  elements : List String
  ranking : Option Json
deriving DecidableEq, Repr

/-- The state of an `S3Batch` instance (its `__dict__`). `ranking` is the
parsed rankings dictionary, `[]` when absent (the `ranking={}` default). -/
structure S3Batch where
  query : String
  etype : String
  root : String
  elements : List String
  ranking : List (String × List String)
deriving DecidableEq, Repr

/-- `LocalBatch.unpack_element(pth)` with the default `suffixes=[".json"]`:
collect `(f.name, parsed)` for each file of the directory whose suffix is
recognized. -/
def local_unpack_element (fs : LocalFS) (pth : String) : Element :=
  { id := pathName pth,
    media := (fs.files pth).filter (fun f => [".json"].contains (pathSuffix f.1)) }

/-- `LocalBatch.index_elements()`: every directory under the root; also
reports whether a `__RANKING` element was detected (the method then also
sets `self.ranking`). -/
def local_index_elements (fs : LocalFS) (root : String) : List String :=
  fs.dirs root

/-- The `LocalBatch(query, etype, root, elements)` constructor.
`Batch.__init__` first stores `elements` (or indexes storage when it is
`None`), but `LocalBatch.__init__` then unconditionally overwrites
`self.elements` with a fresh `index_elements()`, so the `elements`
argument never survives into the constructed object. When a `__RANKING`
element is detected, `index_elements` reads
`unpack_element(root/"__RANKING")["media"]["rankings.json"]`; if that
directory holds no readable `rankings.json` (also when the directory is
missing), the subscript raises `KeyError` and the constructor fails —
modelled as `none`. -/
def mkLocalBatch (fs : LocalFS) (query etype root : String)
    (elements : Option (List String)) : Option LocalBatch :=
  let _ := elements  -- stored by Batch.__init__, then overwritten
  let els := local_index_elements fs root
  if els.any (fun line => strContains (pathName line) "__RANKING") then
    match (local_unpack_element fs (root ++ "/__RANKING")).media.lookup "rankings.json" with
    | some j =>
      some { query := query, etype := etype, root := root,
             elements := els, ranking := some j }
    | none => none
  else
    some { query := query, etype := etype, root := root,
           elements := els, ranking := none }

/-- `S3Batch.unpack_element(el)` with the default `suffixes=[".json"]`:
resolve `el` to a full key prefix (prepending the batch query unless
already prefixed), keep the bucket objects under that prefix with a
recognized suffix, and map each to `(Path(key).name, content)`. -/
def s3_unpack_element (fs : S3FS) (bucket query el : String) : Element :=
  let pfx := if strStarts el query then el else query ++ el
  { id := pathName el,
    media := ((fs.objects bucket).filter
        (fun kv => strStarts kv.1 pfx && [".json"].contains (pathSuffix kv.1))).map
      (fun kv => (pathName kv.1, kv.2)) }

/-- The `S3Batch(query, etype, root, ranking, elements)` constructor.
`self.ranking` is set first; `Batch.__init__` then stores the given
`elements`, or calls `index_elements()` when they are `None`, which also
overwrites `ranking` when a `__RANKING` prefix is discovered. -/
def mkS3Batch (fs : S3FS) (query etype root : String)
    (ranking : List (String × List String)) (elements : Option (List String)) : S3Batch :=
  match elements with
  | some els => { query := query, etype := etype, root := root,
                  elements := els, ranking := ranking }
  | none =>
    let els := fs.commonPfxs root query
    { query := query, etype := etype, root := root, elements := els,
      ranking :=
        if els.any (fun line => strContains line "__RANKING") then
          fs.rankings root query
        else ranking }

/-- `LocalBatch.get_element(el_id)`: unpack the unique element whose
basename is `el_id`; `None` when there are zero or several matches. -/
def LocalBatch.get_element (fs : LocalFS) (b : LocalBatch) (el_id : String) : Option Element :=
  match b.elements.filter (fun el => pathName el == el_id) with
  | [m] => some (local_unpack_element fs m)
  | _ => none

/-- `LocalBatch.get_elements(page, limit)`: unpacks the whole `elements`
list, ignoring `page` and `limit`. -/
def LocalBatch.get_elements (fs : LocalFS) (b : LocalBatch) (page limit : Int) : List Element :=
  let _ := page
  let _ := limit
  b.elements.map (local_unpack_element fs)

/-- `S3Batch.get_element(el_id)`: same exactly-one-match contract as the
local variant, matching on `Path(el).name`. -/
def S3Batch.get_element (fs : S3FS) (b : S3Batch) (el_id : String) : Option Element :=
  match b.elements.filter (fun el => pathName el == el_id) with
  | [m] => some (s3_unpack_element fs b.root b.query m)
  | _ => none

/-- `S3Batch.get_elements(page, limit, rank_by)`: slice `elements` with
`start = page*limit`, `end = start + (limit - 1)`; when `rank_by` is given
and is a key of `ranking`, slice that ranking list instead; unpack each
selected identifier. -/
def S3Batch.get_elements (fs : S3FS) (b : S3Batch) (page limit : Int)
    (rank_by : Option String) : List Element :=
  let start_idx := page * limit
  let end_idx := start_idx + (limit - 1)
  let els_to_give := pySlice b.elements start_idx end_idx
  let els_to_give :=
    match rank_by with
    | none => els_to_give
    | some rb =>
      match b.ranking.lookup rb with
      | some rank => pySlice rank start_idx end_idx
      | none => els_to_give
  els_to_give.map (s3_unpack_element fs b.root b.query)

/-- `Batch.attrs()`: the base snapshot attribute allowlist. -/
def Batch.attrs : List String := ["query", "etype", "elements", "root"]

/-- `S3Batch.attrs()`: the base allowlist plus `ranking`. -/
def S3Batch.attrs : List String := Batch.attrs ++ ["ranking"]

/-- A batch of either backend variant. -/
inductive BatchV where
  | loc : LocalBatch → BatchV
  | s3 : S3Batch → BatchV
deriving DecidableEq, Repr

def BatchV.query : BatchV → String
  | .loc b => b.query
  | .s3 b => b.query

def BatchV.etype : BatchV → String
  | .loc b => b.etype
  | .s3 b => b.etype

def BatchV.root : BatchV → String
  | .loc b => b.root
  | .s3 b => b.root

def BatchV.elements : BatchV → List String
  | .loc b => b.elements
  | .s3 b => b.elements

/-- `Batch.serialize()`: the dictionary served by `GET /elementmap`,
`{"query": ..., "elements": [basename, ...], "etype": ...}`. -/
def BatchV.serialize (b : BatchV) : List (String × PyVal) :=
  [("query", .vstr b.query),
   ("elements", .vlist (b.elements.map pathName)),
   ("etype", .vstr b.etype)]

/-- The `__dict__` of a `LocalBatch` in insertion order; `ranking` is
present only when it was ever assigned. -/
def LocalBatch.dict (b : LocalBatch) : List (String × PyVal) :=
  [("query", .vstr b.query), ("etype", .vstr b.etype),
   ("root", .vstr b.root), ("elements", .vlist b.elements)] ++
  (match b.ranking with
   | some j => [("ranking", .vjson j)]
   | none => [])

/-- The `__dict__` of an `S3Batch` (`ranking` is assigned first). -/
def S3Batch.dict (b : S3Batch) : List (String × PyVal) :=
  [("ranking", .vdict b.ranking), ("query", .vstr b.query),
   ("etype", .vstr b.etype), ("root", .vstr b.root),
   ("elements", .vlist b.elements)]

/-- A pickled snapshot entry and the snapshot file contents. -/
abbrev Dict := List (String × PyVal)
abbrev Snapshot := List (String × Dict)

/-- `save_map(mp)`: pickle `[(x.__class__.__name__, x.__dict__) for x in mp["batches"]]`. -/
def save_map (mp : List BatchV) : Snapshot :=
  mp.map (fun b =>
    match b with
    | .loc lb => ("LocalBatch", lb.dict)
    | .s3 sb => ("S3Batch", sb.dict))

/-- Errors that abort a request in the embedded fragment. -/
inductive PyError where
  | fileNotFound   -- `open(EM_STORE, "rb")` raised FileNotFoundError
  | loadError      -- exception while rebuilding batches: KeyError from
                   -- `globals()[typ]` or `dct[k]`, or the KeyError /
                   -- FileNotFoundError raised by the `__RANKING` unpack
                   -- inside `LocalBatch.index_elements`
  | noneBatch      -- AttributeError: method call on a `None` batch
  | typeError      -- TypeError: unexpected keyword argument
deriving DecidableEq, Repr

/-- Decode one snapshot entry: resolve the type tag in `globals()`, extract
exactly the keys of that variant's `attrs()` allowlist, and call the
constructor with them (`Batch(**args)`). `none` models an exception on
this path: the `KeyError` raised by an unknown tag or a missing key, a
shape mismatch, or an exception raised inside the constructor itself. -/
def load_batch (fsL : LocalFS) (fsS : S3FS) (typ : String) (d : Dict) : Option BatchV :=
  if typ = "LocalBatch" then
    match d.lookup "query", d.lookup "etype", d.lookup "elements", d.lookup "root" with
    | some (.vstr q), some (.vstr e), some (.vlist els), some (.vstr r) =>
      (mkLocalBatch fsL q e r (some els)).map .loc
    | _, _, _, _ => none
  else if typ = "S3Batch" then
    match d.lookup "query", d.lookup "etype", d.lookup "elements",
          d.lookup "root", d.lookup "ranking" with
    | some (.vstr q), some (.vstr e), some (.vlist els), some (.vstr r), some (.vdict rk) =>
      some (.s3 (mkS3Batch fsS q e r rk (some els)))
    | _, _, _, _, _ => none
  else none

/-- Decode every entry of the snapshot list; any failure is fatal. -/
def load_entries (fsL : LocalFS) (fsS : S3FS) : Snapshot → Option (List BatchV)
  | [] => some []
  | td :: rest =>
    match load_batch fsL fsS td.1 td.2, load_entries fsL fsS rest with
    | some b, some bs => some (b :: bs)
    | _, _ => none

/-- `load_map()`: open and unpickle the snapshot file (`none` = the file
does not exist), then reconstruct each batch from its `(type, dict)` pair;
an empty pickled list yields an empty batch set. -/
def load_map (fsL : LocalFS) (fsS : S3FS) (file : Option Snapshot) :
    Except PyError (List BatchV) :=
  match file with
  | none => .error .fileNotFound
  | some raw =>
    if 0 < raw.length then
      match load_entries fsL fsS raw with
      | some bs => .ok bs
      | none => .error .loadError
    else .ok []

/-- `batch_from_query(batches, query)`: `None` for a falsy query; otherwise
strip slashes on both sides of the comparison and return the unique match,
`None` when there are zero or several. -/
def batch_from_query (batches : List BatchV) (query : Option String) : Option BatchV :=
  match query with
  | none => none
  | some q =>
    if q = "" then none
    else
      match batches.filter (fun b => stripSlashes b.query == stripSlashes q) with
      | [m] => some m
      | _ => none

/-- The body of the paginated `GET /batch` handler once the snapshot has
been reloaded into `batches`: default `limit` to 10, `page` to 0 and
`rank_by` to `"tank"`, resolve the batch, and call
`batch.get_elements(page=..., limit=..., rank_by=...)`. A `None` batch
raises `AttributeError`; a `LocalBatch` raises `TypeError` because its
`get_elements` does not accept the `rank_by` keyword. -/
def route_core (fsS : S3FS) (batches : List BatchV) (arg_q : Option String)
    (arg_page arg_limit : Option Int) (arg_rank_by : Option String) :
    Except PyError (List Element) :=
  let limit := arg_limit.getD 10
  let page := arg_page.getD 0
  let rank_by := arg_rank_by.getD "tank"
  match batch_from_query batches arg_q with
  | none => .error .noneBatch
  | some (.loc _) => .error .typeError
  | some (.s3 b) => .ok (S3Batch.get_elements fsS b page limit (some rank_by))

/-- The paginated form of `GET /batch` (the `el` argument absent): reload
the snapshot with `load_map` and run the handler body on the result. -/
def route_batch_get_paginated (fsL : LocalFS) (fsS : S3FS) (file : Option Snapshot)
    (arg_q : Option String) (arg_page arg_limit : Option Int)
    (arg_rank_by : Option String) : Except PyError (List Element) :=
  match load_map fsL fsS file with
  | .error e => .error e
  | .ok batches => route_core fsS batches arg_q arg_page arg_limit arg_rank_by

/-- The `__main__` tail: `mp = index(...)`; `save_map(mp)` runs only when
`len(mp["batches"]) > 0`. The snapshot file is left untouched otherwise. -/
def main_startup (mp : List BatchV) (store : Option Snapshot) : Option Snapshot :=
  if 0 < mp.length then some (save_map mp) else store

/-! ### What one save/load cycle does to a batch -/

/-- The batch that `load_map` rebuilds from one batch's snapshot entry: an
`S3Batch` is reconstructed verbatim from its persisted attributes, while a
`LocalBatch` goes back through `LocalBatch.__init__`, which re-runs
`index_elements()` and may therefore raise (`none`). -/
def reload (fsL : LocalFS) (fsS : S3FS) : BatchV → Option BatchV
  | .loc lb => (mkLocalBatch fsL lb.query lb.etype lb.root (some lb.elements)).map .loc
  | .s3 sb => some (.s3 (mkS3Batch fsS sb.query sb.etype sb.root sb.ranking (some sb.elements)))

/-- Reload every batch of an index; any constructor exception is fatal. -/
def reloadAll (fsL : LocalFS) (fsS : S3FS) : List BatchV → Option (List BatchV)
  | [] => some []
  | b :: rest =>
    match reload fsL fsS b, reloadAll fsL fsS rest with
    | some b', some bs => some (b' :: bs)
    | _, _ => none

lemma load_entries_save (fsL : LocalFS) (fsS : S3FS) (mp : List BatchV) :
    load_entries fsL fsS (save_map mp) = reloadAll fsL fsS mp := by
  induction mp with
  | nil => rfl
  | cons b rest ih =>
    cases b with
    | loc lb =>
      show load_entries fsL fsS (("LocalBatch", lb.dict) :: save_map rest) = _
      simp only [load_entries, ih]
      rfl
    | s3 sb =>
      show load_entries fsL fsS (("S3Batch", sb.dict) :: save_map rest) = _
      simp only [load_entries, ih]
      rfl

lemma load_map_save (fsL : LocalFS) (fsS : S3FS) (mp : List BatchV) :
    load_map fsL fsS (some (save_map mp)) =
      (reloadAll fsL fsS mp).elim (.error .loadError) .ok := by
  cases mp with
  | nil => rfl
  | cons b rest =>
    have h : 0 < (save_map (b :: rest)).length := by
      simp [save_map]
    simp only [load_map, if_pos h, load_entries_save]
    cases hr : reloadAll fsL fsS (b :: rest) <;> simp [hr]

/-- Everything `LocalBatch.__init__` guarantees about a construction that
did not raise: the identity attributes are stored and `elements` are the
fresh `index_elements()` listing. -/
lemma mkLocalBatch_spec (fs : LocalFS) (q e r : String) (els0 : Option (List String))
    (lb' : LocalBatch) (h : mkLocalBatch fs q e r els0 = some lb') :
    lb'.query = q ∧ lb'.etype = e ∧ lb'.root = r ∧
      lb'.elements = local_index_elements fs r := by
  simp only [mkLocalBatch] at h
  split at h
  · split at h
    · injection h with h'
      subst h'
      exact ⟨rfl, rfl, rfl, rfl⟩
    · exact absurd h (by simp)
  · injection h with h'
    subst h'
    exact ⟨rfl, rfl, rfl, rfl⟩

/-- `LocalBatch.__init__` raises exactly when a `__RANKING` element is
detected in the fresh listing but its directory yields no
`rankings.json` payload. -/
lemma mkLocalBatch_none_iff (fs : LocalFS) (q e r : String) (els0 : Option (List String)) :
    mkLocalBatch fs q e r els0 = none ↔
      ((local_index_elements fs r).any
          (fun line => strContains (pathName line) "__RANKING") = true ∧
       (local_unpack_element fs (r ++ "/__RANKING")).media.lookup "rankings.json" = none) := by
  simp only [mkLocalBatch]
  split
  · rename_i hc
    split
    · rename_i j hj
      simp [hc, hj]
    · rename_i hj
      simp [hc, hj]
  · rename_i hc
    constructor
    · intro h
      exact Option.noConfusion h
    · intro hcontra
      exact absurd hcontra.1 hc

/-! ### Slash-stripping helper lemmas -/

lemma stripSlashesL_cons_slash (l : List Char) :
    stripSlashesL ('/' :: l) = stripSlashesL l := by
  simp [stripSlashesL, List.dropWhile_cons]

lemma stripSlashesL_append_slash (l : List Char) :
    stripSlashesL (l ++ ['/']) = stripSlashesL l := by
  unfold stripSlashesL
  rw [List.dropWhile_append]
  cases h : (l.dropWhile (fun c => decide (c = '/'))).isEmpty with
  | true =>
    have hnil : l.dropWhile (fun c => decide (c = '/')) = [] := List.isEmpty_iff.mp h
    simp [hnil, List.dropWhile_cons]
  | false =>
    simp only [h, Bool.false_eq_true, if_false, List.reverse_append]
    simp [List.dropWhile_cons]

lemma stripSlashes_slash_append (q : String) :
    stripSlashes ("/" ++ q) = stripSlashes q := by
  show String.mk (stripSlashesL ("/" ++ q).data) = _
  rw [String.data_append "/" q]
  show String.mk (stripSlashesL ('/' :: q.data)) = _
  rw [stripSlashesL_cons_slash]
  rfl

lemma stripSlashes_append_slash (q : String) :
    stripSlashes (q ++ "/") = stripSlashes q := by
  show String.mk (stripSlashesL (q ++ "/").data) = _
  rw [String.data_append q "/"]
  show String.mk (stripSlashesL (q.data ++ ['/'])) = _
  rw [stripSlashesL_append_slash]
  rfl

lemma slash_append_ne_empty (q : String) : ("/" ++ q) ≠ "" := by
  intro h
  have hd : ("/" ++ q).data = ("" : String).data := by rw [h]
  rw [String.data_append "/" q] at hd
  simp at hd

lemma append_slash_ne_empty (q : String) : (q ++ "/") ≠ "" := by
  intro h
  have hd : (q ++ "/").data = ("" : String).data := by rw [h]
  rw [String.data_append q "/"] at hd
  simp at hd

/-! ### Concrete storage states and batches used by witnesses -/

/-- An empty local filesystem. -/
def demoFsL : LocalFS := ⟨fun _ => [], fun _ => []⟩

/-- An empty bucket. -/
def demoFsS : S3FS := ⟨fun _ => [], fun _ _ => [], fun _ _ => []⟩

/-- A local filesystem whose every root lists the single directory `/r/b`. -/
def cexFsL : LocalFS := ⟨fun _ => ["/r/b"], fun _ => []⟩

/-- A local filesystem whose every root lists `/data/x` and `/data/y`. -/
def cexFsL2 : LocalFS := ⟨fun _ => ["/data/x", "/data/y"], fun _ => []⟩

/-- A local batch whose recorded elements disagree with `cexFsL`. -/
def cexLb : LocalBatch := ⟨"batchA", "youtube", "/r", ["/r/a"], none⟩

/-- A local batch whose recorded elements disagree with `cexFsL2`. -/
def cexLb2 : LocalBatch := ⟨"b2", "img", "/data", ["/data/z"], none⟩

/-- A local batch with two elements sharing the basename `a`. -/
def demoLocalDup : LocalBatch := ⟨"dup", "youtube", "/r", ["/r/x/a", "/r/y/a"], none⟩

/-- An S3 batch with two element prefixes sharing the basename `a`. -/
def demoS3Dup : S3Batch := ⟨"q/", "youtube", "bkt", ["q/x/a/", "q/y/a/"], []⟩

/-- A one-batch index used for query-resolution witnesses. -/
def demoBatches : List BatchV := [.loc ⟨"foo", "youtube", "/r/foo", [], none⟩]

/-- An S3 batch carrying a `"tank"` ranking. -/
def demoRank : S3Batch :=
  ⟨"q/", "youtube", "bkt", ["q/a/", "q/b/", "q/c/", "q/d/"],
   [("tank", ["q/c/", "q/a/", "q/b/"])]⟩

/-- A local batch reachable through the route layer. -/
def demoLocal9 : LocalBatch := ⟨"loc", "youtube", "/r", [], none⟩

/-! ### Claims -/

/-- C1 (amended): saving the snapshot and loading it back reconstructs the
batches through `reload`, and the load fails (fatally) exactly when some
entry's reconstruction raises. An S3 batch reloads successfully and comes
back equal on every attribute of its allowlist (all of its fields). A
local batch that reloads successfully keeps `query`, `etype` and `root`
but has its `elements` re-derived from the load-time storage by
`index_elements`, so its elements round-trip only when the storage
listing still matches; and its reload raises exactly when the fresh
listing shows a `__RANKING` element whose directory yields no
`rankings.json`. -/
theorem snapshot_roundtrip (fsL : LocalFS) (fsS : S3FS) (mp : List BatchV) :
    load_map fsL fsS (some (save_map mp)) =
      (reloadAll fsL fsS mp).elim (.error .loadError) .ok ∧
    (∀ sb : S3Batch, reload fsL fsS (.s3 sb) = some (.s3 sb)) ∧
    (∀ lb lb' : LocalBatch, reload fsL fsS (.loc lb) = some (.loc lb') →
      lb'.query = lb.query ∧ lb'.etype = lb.etype ∧ lb'.root = lb.root ∧
      lb'.elements = local_index_elements fsL lb.root) ∧
    (∀ lb : LocalBatch, reload fsL fsS (.loc lb) = none ↔
      ((local_index_elements fsL lb.root).any
          (fun line => strContains (pathName line) "__RANKING") = true ∧
       (local_unpack_element fsL (lb.root ++ "/__RANKING")).media.lookup
          "rankings.json" = none)) := by
  refine ⟨load_map_save fsL fsS mp, fun _ => rfl, ?_, ?_⟩
  · intro lb lb' h
    simp only [reload] at h
    cases hmk : mkLocalBatch fsL lb.query lb.etype lb.root (some lb.elements) with
    | none =>
      rw [hmk] at h
      exact absurd h (by simp)
    | some x =>
      rw [hmk] at h
      simp at h
      subst h
      exact mkLocalBatch_spec _ _ _ _ _ _ hmk
  · intro lb
    simp only [reload, Option.map_eq_none']
    exact mkLocalBatch_none_iff fsL lb.query lb.etype lb.root (some lb.elements)

/-- C1 witness: a concrete successful reload of a local batch preserves
`query`, `etype`, `root` and re-derives `elements` from storage. -/
theorem snapshot_roundtrip_witness :
    (⟨"batchA", "youtube", "/r", ["/r/b"], none⟩ : LocalBatch).query = cexLb.query ∧
    (⟨"batchA", "youtube", "/r", ["/r/b"], none⟩ : LocalBatch).etype = cexLb.etype ∧
    (⟨"batchA", "youtube", "/r", ["/r/b"], none⟩ : LocalBatch).root = cexLb.root ∧
    (⟨"batchA", "youtube", "/r", ["/r/b"], none⟩ : LocalBatch).elements =
      local_index_elements cexFsL cexLb.root :=
  (snapshot_roundtrip cexFsL demoFsS []).2.2.1 cexLb
    ⟨"batchA", "youtube", "/r", ["/r/b"], none⟩ rfl

/-- C1 counterexample: a local batch persisted with elements `["/r/a"]` is
reloaded with elements `["/r/b"]` when that is what the load-time
filesystem lists, so `load(save(batches))` does not preserve the
`elements` attribute of the Local variant's allowlist. -/
theorem snapshot_roundtrip_cex :
    load_map cexFsL demoFsS (some (save_map [.loc cexLb])) =
      .ok [.loc ⟨"batchA", "youtube", "/r", ["/r/b"], none⟩] ∧
    cexLb.elements = ["/r/a"] ∧ ("/r/b" :: ([] : List String)) ≠ ["/r/a"] :=
  ⟨rfl, rfl, by decide⟩

/-- C2 (amended): a reconstructed S3 batch takes its `elements` straight
from the snapshot, whatever either storage now contains; a reconstructed
local batch instead re-invokes `index_elements`, so whenever its load
succeeds its `elements` equal the load-time storage listing rather than
the persisted sequence (and the load raises instead of succeeding when
the `__RANKING` unpack fails). -/
theorem load_elements_provenance (sb : S3Batch) (lb : LocalBatch) :
    (∀ (fsL' : LocalFS) (fsS' : S3FS),
      load_map fsL' fsS' (some (save_map [.s3 sb])) = .ok [.s3 sb]) ∧
    (∀ (fsL' : LocalFS) (fsS' : S3FS) (lb' : LocalBatch),
      load_map fsL' fsS' (some (save_map [.loc lb])) = .ok [.loc lb'] →
      lb'.elements = local_index_elements fsL' lb.root) := by
  constructor
  · intro fsL' fsS'
    exact (load_map_save fsL' fsS' [.s3 sb]).trans rfl
  · intro fsL' fsS' lb' h
    rw [load_map_save] at h
    cases hmk : mkLocalBatch fsL' lb.query lb.etype lb.root (some lb.elements) with
    | none =>
      have hr : reloadAll fsL' fsS' [.loc lb] = none := by
        simp [reloadAll, reload, hmk]
      rw [hr] at h
      exact absurd h (by simp)
    | some x =>
      have hr : reloadAll fsL' fsS' [.loc lb] = some [.loc x] := by
        simp [reloadAll, reload, hmk]
      rw [hr] at h
      simp at h
      subst h
      exact (mkLocalBatch_spec _ _ _ _ _ _ hmk).2.2.2

/-- C2 witness: at a concrete snapshot and load-time filesystem, the
reconstructed local batch's elements are the storage listing. -/
theorem load_elements_provenance_witness :
    (⟨"b2", "img", "/data", ["/data/x", "/data/y"], none⟩ : LocalBatch).elements =
      local_index_elements cexFsL2 cexLb2.root :=
  (load_elements_provenance demoRank cexLb2).2 cexFsL2 demoFsS
    ⟨"b2", "img", "/data", ["/data/x", "/data/y"], none⟩ rfl

/-- C2 counterexample: a local batch persisted with elements `["/data/z"]`
is reconstructed by `load_map` with elements `["/data/x", "/data/y"]` — the
current storage contents — so the persisted sequence is not passed
through and element discovery is re-invoked. -/
theorem load_elements_passthrough_cex :
    load_map cexFsL2 demoFsS (some (save_map [.loc cexLb2])) =
      .ok [.loc ⟨"b2", "img", "/data", ["/data/x", "/data/y"], none⟩] ∧
    cexLb2.elements = ["/data/z"] ∧
    (["/data/x", "/data/y"] : List String) ≠ ["/data/z"] :=
  ⟨rfl, rfl, by decide⟩

/-- C3 (amended): the snapshot allowlists are exactly
`query, etype, elements, root` (plus `ranking` for the S3 variant), and a
serialized batch carries exactly the fields `query, elements, etype`; no
`config` field exists in either. -/
theorem snapshot_allowlists_and_serialize_fields :
    Batch.attrs = ["query", "etype", "elements", "root"] ∧
    S3Batch.attrs = ["query", "etype", "elements", "root", "ranking"] ∧
    ∀ b : BatchV, (BatchV.serialize b).map Prod.fst = ["query", "elements", "etype"] :=
  ⟨rfl, rfl, fun b => match b with | .loc _ => rfl | .s3 _ => rfl⟩

/-- C3 counterexample: `config` appears neither in either variant's
attribute allowlist nor among the fields of a serialized batch. -/
theorem config_not_persisted_or_served :
    "config" ∉ Batch.attrs ∧ "config" ∉ S3Batch.attrs ∧
    "config" ∉
      (BatchV.serialize (.loc ⟨"batchA", "youtube", "/sata/mtriage/batchA", [], none⟩)).map
        Prod.fst := by
  refine ⟨by decide, by decide, by decide⟩

/-- C4: `S3Batch.get_elements(page, limit)` (no ranking) slices `elements`
from `page*limit` to `page*limit + (limit-1)` exclusive, so a full page
holds `limit - 1` items: on ten elements, page 0 with limit 5 yields the
unpacked `[e0,e1,e2,e3]` and page 1 yields `[e5,e6,e7,e8]`. -/
theorem s3_get_elements_off_by_one (fs : S3FS) (q et r : String)
    (rk : List (String × List String)) (e0 e1 e2 e3 e4 e5 e6 e7 e8 e9 : String) :
    (∀ (els : List String) (page limit : Int),
      S3Batch.get_elements fs ⟨q, et, r, els, rk⟩ page limit none =
        (pySlice els (page * limit) (page * limit + (limit - 1))).map
          (s3_unpack_element fs r q)) ∧
    S3Batch.get_elements fs ⟨q, et, r, [e0, e1, e2, e3, e4, e5, e6, e7, e8, e9], rk⟩
        0 5 none =
      [e0, e1, e2, e3].map (s3_unpack_element fs r q) ∧
    S3Batch.get_elements fs ⟨q, et, r, [e0, e1, e2, e3, e4, e5, e6, e7, e8, e9], rk⟩
        1 5 none =
      [e5, e6, e7, e8].map (s3_unpack_element fs r q) :=
  ⟨fun _ _ _ => rfl, rfl, rfl⟩

/-- C5: `batch_from_query` strips leading/trailing slashes on both sides
of an exact comparison — so `"/foo"` and `"foo/"` resolve exactly as
`"foo"` — returns the unique match, and yields `none` (not an error) on
zero or several matches. -/
theorem batch_from_query_strip_insensitive (bs : List BatchV) (q : String) (hq : q ≠ "") :
    batch_from_query bs (some ("/" ++ q)) = batch_from_query bs (some q) ∧
    batch_from_query bs (some (q ++ "/")) = batch_from_query bs (some q) ∧
    (∀ b, bs.filter (fun c => stripSlashes c.query == stripSlashes q) = [b] →
      batch_from_query bs (some q) = some b) ∧
    (∀ ms, bs.filter (fun c => stripSlashes c.query == stripSlashes q) = ms →
      ms.length ≠ 1 → batch_from_query bs (some q) = none) := by
  refine ⟨?_, ?_, ?_, ?_⟩
  · simp only [batch_from_query, if_neg (slash_append_ne_empty q), if_neg hq,
      stripSlashes_slash_append]
  · simp only [batch_from_query, if_neg (append_slash_ne_empty q), if_neg hq,
      stripSlashes_append_slash]
  · intro b hb
    simp only [batch_from_query, if_neg hq, hb]
  · intro ms hms hlen
    simp only [batch_from_query, if_neg hq, hms]
    match ms, hlen with
    | [], _ => rfl
    | [_], h => exact absurd rfl h
    | _ :: _ :: _, _ => rfl

/-- C5 witness: on a concrete one-batch index, `"/foo"` and `"foo/"`
resolve to the same result as `"foo"`. -/
theorem batch_from_query_strip_insensitive_witness :
    batch_from_query demoBatches (some "/foo") = batch_from_query demoBatches (some "foo") ∧
    batch_from_query demoBatches (some "foo/") = batch_from_query demoBatches (some "foo") :=
  ⟨(batch_from_query_strip_insensitive demoBatches "foo" (by decide)).1,
   (batch_from_query_strip_insensitive demoBatches "foo" (by decide)).2.1⟩

/-- C6: for both variants, `get_element(id)` unpacks the unique stored
element whose basename equals `id`, and returns `none` — never an error
and never an arbitrary pick — when zero or several elements match. -/
theorem get_element_exactly_one (fsL : LocalFS) (fsS : S3FS)
    (lb : LocalBatch) (sb : S3Batch) (i : String) :
    (lb.elements.filter (fun el => pathName el == i) = [] →
      LocalBatch.get_element fsL lb i = none) ∧
    (∀ m, lb.elements.filter (fun el => pathName el == i) = [m] →
      LocalBatch.get_element fsL lb i = some (local_unpack_element fsL m)) ∧
    (∀ m1 m2 rest, lb.elements.filter (fun el => pathName el == i) = m1 :: m2 :: rest →
      LocalBatch.get_element fsL lb i = none) ∧
    (sb.elements.filter (fun el => pathName el == i) = [] →
      S3Batch.get_element fsS sb i = none) ∧
    (∀ m, sb.elements.filter (fun el => pathName el == i) = [m] →
      S3Batch.get_element fsS sb i = some (s3_unpack_element fsS sb.root sb.query m)) ∧
    (∀ m1 m2 rest, sb.elements.filter (fun el => pathName el == i) = m1 :: m2 :: rest →
      S3Batch.get_element fsS sb i = none) := by
  refine ⟨?_, ?_, ?_, ?_, ?_, ?_⟩
  · intro h
    unfold LocalBatch.get_element
    rw [h]
  · intro m h
    unfold LocalBatch.get_element
    rw [h]
  · intro m1 m2 rest h
    unfold LocalBatch.get_element
    rw [h]
  · intro h
    unfold S3Batch.get_element
    rw [h]
  · intro m h
    unfold S3Batch.get_element
    rw [h]
  · intro m1 m2 rest h
    unfold S3Batch.get_element
    rw [h]

/-- C6 witness: two elements sharing the basename `a` make `get_element`
return `none` on both variants. -/
theorem get_element_exactly_one_witness :
    LocalBatch.get_element demoFsL demoLocalDup "a" = none ∧
    S3Batch.get_element demoFsS demoS3Dup "a" = none :=
  ⟨(get_element_exactly_one demoFsL demoFsS demoLocalDup demoS3Dup "a").2.2.1
      "/r/x/a" "/r/y/a" [] (by decide),
   (get_element_exactly_one demoFsL demoFsS demoLocalDup demoS3Dup "a").2.2.2.2.2
      "q/x/a/" "q/y/a/" [] (by decide)⟩

/-- C7: when `rank_by` names a key of `ranking`, `get_elements` applies
the same `start = page*limit`, `end = start + (limit-1)` slicing to that
ranking list (so `ranking["tank"] = [e0,e1,e2]` with page 0 and limit 3
yields the unpacked `[e0,e1]`); when the key is absent it falls back to
the natural `elements` order. -/
theorem s3_get_elements_ranking_override (fs : S3FS) (b : S3Batch)
    (page limit : Int) (rb : String) (rank : List String)
    (hrb : b.ranking.lookup rb = some rank) :
    S3Batch.get_elements fs b page limit (some rb) =
      (pySlice rank (page * limit) (page * limit + (limit - 1))).map
        (s3_unpack_element fs b.root b.query) ∧
    (∀ b' : S3Batch, b'.ranking.lookup rb = none →
      S3Batch.get_elements fs b' page limit (some rb) =
        (pySlice b'.elements (page * limit) (page * limit + (limit - 1))).map
          (s3_unpack_element fs b'.root b'.query)) ∧
    (∀ (q et r : String) (els : List String) (e0 e1 e2 : String),
      S3Batch.get_elements fs ⟨q, et, r, els, [("tank", [e0, e1, e2])]⟩ 0 3 (some "tank") =
        [e0, e1].map (s3_unpack_element fs r q)) := by
  refine ⟨?_, ?_, fun q et r els e0 e1 e2 => rfl⟩
  · show (match b.ranking.lookup rb with
        | some rank => pySlice rank (page * limit) (page * limit + (limit - 1))
        | none => pySlice b.elements (page * limit) (page * limit + (limit - 1))).map
          (s3_unpack_element fs b.root b.query) = _
    rw [hrb]
  · intro b' hb'
    show (match b'.ranking.lookup rb with
        | some rank => pySlice rank (page * limit) (page * limit + (limit - 1))
        | none => pySlice b'.elements (page * limit) (page * limit + (limit - 1))).map
          (s3_unpack_element fs b'.root b'.query) = _
    rw [hb']

/-- C7 witness: on a concrete batch with `ranking["tank"]`, page 0 with
limit 3 returns the unpacked first two entries of the ranking list. -/
theorem s3_get_elements_ranking_override_witness :
    S3Batch.get_elements demoFsS demoRank 0 3 (some "tank") =
      [s3_unpack_element demoFsS "bkt" "q/" "q/c/",
       s3_unpack_element demoFsS "bkt" "q/" "q/a/"] :=
  (s3_get_elements_ranking_override demoFsS demoRank 0 3 "tank"
      ["q/c/", "q/a/", "q/b/"] rfl).1

/-- C8: the startup path leaves the snapshot store untouched when
discovery returns zero batches (`save_map` is never invoked), and a
subsequent `load_map` against a nonexistent snapshot file is a fatal load
error, not an empty batch set. -/
theorem empty_index_no_save_and_missing_snapshot_fatal :
    (∀ store : Option Snapshot, main_startup [] store = store) ∧
    (∀ (fsL : LocalFS) (fsS : S3FS), load_map fsL fsS none = .error .fileNotFound) :=
  ⟨fun _ => rfl, fun _ _ => rfl⟩

/-- C9: whenever the paginated `GET /batch` form resolves a Local-backend
batch, the handler fails with a `TypeError` — `LocalBatch.get_elements`
does not accept the `rank_by` keyword the route always passes — so no
paginated response is ever produced for a Local batch. -/
theorem route_paginated_local_type_error (fsL : LocalFS) (fsS : S3FS)
    (file : Option Snapshot) (arg_q : Option String) (page limit : Option Int)
    (arg_rank_by : Option String) (batches : List BatchV) (lb : LocalBatch)
    (hload : load_map fsL fsS file = .ok batches)
    (hq : batch_from_query batches arg_q = some (.loc lb)) :
    route_batch_get_paginated fsL fsS file arg_q page limit arg_rank_by =
      .error .typeError := by
  unfold route_batch_get_paginated
  rw [hload]
  show route_core fsS batches arg_q page limit arg_rank_by = .error .typeError
  unfold route_core
  rw [hq]

/-- C9 witness: a concrete snapshot holding one Local batch makes the
paginated route fail with `TypeError`. -/
theorem route_paginated_local_type_error_witness :
    route_batch_get_paginated demoFsL demoFsS (some (save_map [.loc demoLocal9]))
        (some "loc") none none none = .error .typeError :=
  route_paginated_local_type_error demoFsL demoFsS (some (save_map [.loc demoLocal9]))
    (some "loc") none none none [.loc ⟨"loc", "youtube", "/r", [], none⟩]
    ⟨"loc", "youtube", "/r", [], none⟩ rfl rfl

/-- C10: when the pagination request omits `rank_by`, the route
substitutes the fixed key `"tank"`, so any S3 batch whose ranking has a
`"tank"` key is served in `ranking["tank"]` order even though the request
asked for no ranking. -/
theorem route_paginated_default_rank_tank (fsL : LocalFS) (fsS : S3FS)
    (file : Option Snapshot) (arg_q : Option String) (page limit : Option Int)
    (batches : List BatchV) (b : S3Batch) (rank : List String)
    (hload : load_map fsL fsS file = .ok batches)
    (hq : batch_from_query batches arg_q = some (.s3 b))
    (htank : b.ranking.lookup "tank" = some rank) :
    route_batch_get_paginated fsL fsS file arg_q page limit none =
      .ok ((pySlice rank ((page.getD 0) * (limit.getD 10))
            ((page.getD 0) * (limit.getD 10) + ((limit.getD 10) - 1))).map
          (s3_unpack_element fsS b.root b.query)) := by
  unfold route_batch_get_paginated
  rw [hload]
  show route_core fsS batches arg_q page limit none = _
  unfold route_core
  rw [hq]
  show Except.ok ((match b.ranking.lookup "tank" with
      | some rank =>
        pySlice rank ((page.getD 0) * (limit.getD 10))
          ((page.getD 0) * (limit.getD 10) + ((limit.getD 10) - 1))
      | none =>
        pySlice b.elements ((page.getD 0) * (limit.getD 10))
          ((page.getD 0) * (limit.getD 10) + ((limit.getD 10) - 1))).map
      (s3_unpack_element fsS b.root b.query)) = _
  rw [htank]

/-- C10 witness: a request without `rank_by` against a concrete S3 batch
with a `"tank"` ranking returns the ranking order. -/
theorem route_paginated_default_rank_tank_witness :
    route_batch_get_paginated demoFsL demoFsS (some (save_map [.s3 demoRank]))
        (some "q") none none none =
      .ok [s3_unpack_element demoFsS "bkt" "q/" "q/c/",
           s3_unpack_element demoFsS "bkt" "q/" "q/a/",
           s3_unpack_element demoFsS "bkt" "q/" "q/b/"] :=
  route_paginated_default_rank_tank demoFsL demoFsS (some (save_map [.s3 demoRank]))
    (some "q") none none [.s3 demoRank] demoRank ["q/c/", "q/a/", "q/b/"] rfl rfl rfl

end Mtriage
